import Mathlib

/-!
Verification development for the Project Synapse coordination core.

The definitions below are a shallow embedding of the Python sources:
Python dynamic values (`Any`, dict payloads) become the `Json` inductive,
pydantic models become structures together with explicit parsing functions
that perform exactly the checks pydantic performs on the corresponding
model, fallible Python code (raised exceptions) becomes `Except`/`Option`,
and the stateful agents become explicit state-passing step functions.
Numeric JSON values are modelled as integers (every numeric literal the
modelled code manipulates is integral), and wire serialisation is modelled
at the level of JSON documents rather than character strings.
-/

namespace Synapse

/-- JSON-like dynamic values: the embedding of Python `Any` / `Dict[str, Any]`
payload contents. Objects are association lists (Python dicts have unique
keys; the first binding wins on lookup). -/
inductive Json where
  | null : Json
  | bool (b : Bool) : Json
  | num (n : Int) : Json
  | str (s : String) : Json
  | arr (elems : List Json) : Json
  | obj (fields : List (String × Json)) : Json

/-- Lookup of a key in an object's field list (Python `dict[k]` / `dict.get`). -/
def lookupField : List (String × Json) → String → Option Json
  | [], _ => none
  | (k', v) :: rest, k => if k' = k then some v else lookupField rest k

/-- Whether a value is a Python dict (an attribute `.get` exists only on dicts). -/
def Json.isObj : Json → Bool
  | .obj _ => true
  | _ => false

/-- Python truthiness of a dynamic value (`if x:`). -/
def pyTruthy : Json → Bool
  | .null => false
  | .bool b => b
  | .num n => n != 0
  | .str s => s ≠ ""
  | .arr xs => !xs.isEmpty
  | .obj fs => !fs.isEmpty

/-- Python truthiness of an `Optional[str]` (`None` and `""` are falsy). -/
def truthyStr : Option String → Bool
  | none => false
  | some s => s ≠ ""

/-- Python `str()` of a dynamic value as used inside f-strings. Container
rendering (Python `repr` of lists/dicts) is abstracted by a marker; no
modelled code path interpolates a container into a message. -/
def pyStr : Json → String
  | .null => "None"
  | .bool true => "True"
  | .bool false => "False"
  | .num n => toString n
  | .str s => s
  | .arr _ => "<list>"
  | .obj _ => "<dict>"

/-- Contiguous-sublist test used to model Python `in` on strings. -/
def infixOf (needle : List Char) : List Char → Bool
  | [] => needle.isEmpty
  | c :: t => needle.isPrefixOf (c :: t) || infixOf needle t

/-- Python `sub in s` substring containment on strings. -/
def strContains (s sub : String) : Bool :=
  infixOf sub.toList s.toList

/-- ASCII lowering of one character (the cases Python `str.lower` performs
on the ASCII statuses and agent ids this system exchanges). -/
def charLower (c : Char) : Char :=
  if 65 ≤ c.toNat ∧ c.toNat ≤ 90 then Char.ofNat (c.toNat + 32) else c

/-- Python `s.lower()` on ASCII strings. -/
def pyLower (s : String) : String :=
  ⟨s.data.map charLower⟩

/-- Message types of the Agent Communication Protocol
(`ACPMsgType` in src/protocols/acp_schema.py). -/
inductive ACPMsgType where
  | TASK_ASSIGN
  | STATUS_UPDATE
  | DATA_SUBMIT
  | VALIDATION_REQUEST
  | VALIDATION_RESPONSE
  | LOG_BROADCAST
deriving DecidableEq

/-- Wire value of each message type (the Python enum values). -/
def ACPMsgType.value : ACPMsgType → String
  | .TASK_ASSIGN => "task_assign"
  | .STATUS_UPDATE => "status_update"
  | .DATA_SUBMIT => "data_submit"
  | .VALIDATION_REQUEST => "validation_request"
  | .VALIDATION_RESPONSE => "validation_response"
  | .LOG_BROADCAST => "log_broadcast"

/-- Parse a message type from its enum value (pydantic enum validation). -/
def ACPMsgType.ofValue? : String → Option ACPMsgType
  | "task_assign" => some .TASK_ASSIGN
  | "status_update" => some .STATUS_UPDATE
  | "data_submit" => some .DATA_SUBMIT
  | "validation_request" => some .VALIDATION_REQUEST
  | "validation_response" => some .VALIDATION_RESPONSE
  | "log_broadcast" => some .LOG_BROADCAST
  | _ => none

/-- The ACP envelope (`ACPMessage` in src/protocols/acp_schema.py). The
`payload` is a `Dict[str, Any]`. -/
structure ACPMessage where
  sender_id : String
  receiver_id : Option String
  topic : Option String
  msg_type : ACPMsgType
  payload : List (String × Json)
  timestamp : Option String

/-- The destination check performed by `ACPMessage.model_post_init`:
raise unless exactly one of `receiver_id` / `topic` is truthy. -/
def destOk (receiver_id topic : Option String) : Bool :=
  if !truthyStr receiver_id && !truthyStr topic then false
  else if truthyStr receiver_id && truthyStr topic then false
  else true

/-- Constructing an `ACPMessage`: pydantic field assignment followed by
`model_post_init`. The only validation the source performs is the
destination xor rule; `sender_id` in particular is not checked for
non-emptiness. -/
def mkACPMessage (sender_id : String) (receiver_id topic : Option String)
    (msg_type : ACPMsgType) (payload : List (String × Json))
    (timestamp : Option String) : Except String ACPMessage :=
  if !truthyStr receiver_id && !truthyStr topic then
    .error "Either receiver_id or topic must be provided"
  else if truthyStr receiver_id && truthyStr topic then
    .error "Cannot specify both receiver_id and topic"
  else
    .ok ⟨sender_id, receiver_id, topic, msg_type, payload, timestamp⟩

/-- Payload of TASK_ASSIGN messages (`TaskAssignPayload`). -/
structure TaskAssignPayload where
  task_type : String
  task_data : List (String × Json)
  priority : Int

/-- Payload of STATUS_UPDATE messages (`StatusUpdatePayload`). -/
structure StatusUpdatePayload where
  status : String
  progress : Option Int
  task_id : Option String

/-- Payload of DATA_SUBMIT messages (`DataSubmitPayload`). -/
structure DataSubmitPayload where
  data_type : String
  data : Json
  source : Option String
  task_id : Option String

/-- Payload of LOG_BROADCAST messages (`LogBroadcastPayload`). Its only
fields are `level`, `message` and `component`; the source declares no
validator on `level`. -/
structure LogBroadcastPayload where
  level : String
  message : String
  component : Option String

/-- Constructing a `StatusUpdatePayload` from typed arguments: the source
model declares the fields with no validators, so construction always
succeeds — in particular no range check on `progress` is performed. -/
def mkStatusUpdatePayload (status : String) (progress : Option Int)
    (task_id : Option String) : Except String StatusUpdatePayload :=
  .ok ⟨status, progress, task_id⟩

/-- Constructing a `LogBroadcastPayload` from typed arguments: the source
model declares no validator, so any `level` string is accepted. -/
def mkLogBroadcastPayload (level message : String) (component : Option String) :
    Except String LogBroadcastPayload :=
  .ok ⟨level, message, component⟩

/-- The `model_dump()` of a `TaskAssignPayload` as a payload dict. -/
def TaskAssignPayload.dump (p : TaskAssignPayload) : List (String × Json) :=
  [("task_type", .str p.task_type), ("task_data", .obj p.task_data),
   ("priority", .num p.priority)]

/-- Encoding of an optional string field under `model_dump` (None becomes null). -/
def optStrJson : Option String → Json
  | none => .null
  | some s => .str s

/-- Encoding of an optional numeric field under `model_dump`. -/
def optNumJson : Option Int → Json
  | none => .null
  | some n => .num n

/-- The `model_dump()` of a `StatusUpdatePayload` as a payload dict. -/
def StatusUpdatePayload.dump (p : StatusUpdatePayload) : List (String × Json) :=
  [("status", .str p.status), ("progress", optNumJson p.progress),
   ("task_id", optStrJson p.task_id)]

/-- The `model_dump()` of a `DataSubmitPayload` as a payload dict. -/
def DataSubmitPayload.dump (p : DataSubmitPayload) : List (String × Json) :=
  [("data_type", .str p.data_type), ("data", p.data),
   ("source", optStrJson p.source), ("task_id", optStrJson p.task_id)]

/-- The `model_dump()` of a `LogBroadcastPayload` as a payload dict. -/
def LogBroadcastPayload.dump (p : LogBroadcastPayload) : List (String × Json) :=
  [("level", .str p.level), ("message", .str p.message),
   ("component", optStrJson p.component)]

/-- Reading an optional string field during pydantic validation of a payload
dict: absent or null means None, a string is accepted, anything else is a
validation error. -/
def asOptStr : Option Json → Except String (Option String)
  | none => .ok none
  | some .null => .ok none
  | some (.str s) => .ok (some s)
  | some _ => .error "ValidationError: str expected"

/-- Validation performed by `StatusUpdatePayload(**payload)`. -/
def parseStatusUpdatePayload (p : List (String × Json)) :
    Except String StatusUpdatePayload := do
  let status ← match lookupField p "status" with
    | some (.str s) => .ok s
    | _ => .error "ValidationError: status"
  let progress ← match lookupField p "progress" with
    | none => .ok none
    | some .null => .ok none
    | some (.num n) => .ok (some n)
    | some _ => .error "ValidationError: progress"
  let task_id ← asOptStr (lookupField p "task_id")
  .ok ⟨status, progress, task_id⟩

/-- Validation performed by `DataSubmitPayload(**payload)`: `data_type` is a
required string, `data` is a required field of any type. -/
def parseDataSubmitPayload (p : List (String × Json)) :
    Except String DataSubmitPayload := do
  let data_type ← match lookupField p "data_type" with
    | some (.str s) => .ok s
    | _ => .error "ValidationError: data_type"
  let data ← match lookupField p "data" with
    | some v => .ok v
    | none => .error "ValidationError: data"
  let source ← asOptStr (lookupField p "source")
  let task_id ← asOptStr (lookupField p "task_id")
  .ok ⟨data_type, data, source, task_id⟩

/-- Validation performed by `TaskAssignPayload(**payload)`: `task_type` is a
required string, `task_data` a required dict, `priority` an integer
defaulting to 1. -/
def parseTaskAssignPayload (p : List (String × Json)) :
    Except String TaskAssignPayload := do
  let task_type ← match lookupField p "task_type" with
    | some (.str s) => .ok s
    | _ => .error "ValidationError: task_type"
  let task_data ← match lookupField p "task_data" with
    | some (.obj fs) => .ok fs
    | _ => .error "ValidationError: task_data"
  let priority ← match lookupField p "priority" with
    | none => .ok (1 : Int)
    | some (.num n) => .ok n
    | some _ => .error "ValidationError: priority"
  .ok ⟨task_type, task_data, priority⟩

/-- Validation performed by `LogBroadcastPayload(**payload)`: `level` and
`message` are required strings, `component` optional; extra keys (such as
a `correlation_id` present in the dict) are ignored, and no membership
check on `level` is performed. -/
def parseLogBroadcastPayload (p : List (String × Json)) :
    Except String LogBroadcastPayload := do
  let level ← match lookupField p "level" with
    | some (.str s) => .ok s
    | _ => .error "ValidationError: level"
  let message ← match lookupField p "message" with
    | some (.str s) => .ok s
    | _ => .error "ValidationError: message"
  let component ← asOptStr (lookupField p "component")
  .ok ⟨level, message, component⟩

/-- Canonical wire encoding of an envelope (`model_dump_json`), modelled at
the level of JSON documents: pydantic emits every field, serialising `None`
as null and the message type by its enum value. -/
def ACPMessage.encode (m : ACPMessage) : Json :=
  .obj [("sender_id", .str m.sender_id),
        ("receiver_id", optStrJson m.receiver_id),
        ("topic", optStrJson m.topic),
        ("msg_type", .str m.msg_type.value),
        ("payload", .obj m.payload),
        ("timestamp", optStrJson m.timestamp)]

/-- Decoding of a wire document (`ACPMessage.model_validate_json`): required
fields are checked, optional fields default to `None`, the message type is
parsed from its enum value, a missing `payload` defaults to the empty dict,
and `model_post_init` (the destination xor rule) runs on the result. -/
def ACPMessage.decode (j : Json) : Except String ACPMessage :=
  match j with
  | .obj o => do
    let sender ← match lookupField o "sender_id" with
      | some (.str s) => .ok s
      | _ => .error "ValidationError: sender_id"
    let receiver ← asOptStr (lookupField o "receiver_id")
    let topic ← asOptStr (lookupField o "topic")
    let msg_type ← match lookupField o "msg_type" with
      | some (.str v) =>
        match ACPMsgType.ofValue? v with
        | some mt => Except.ok mt
        | none => Except.error "ValidationError: msg_type"
      | _ => .error "ValidationError: msg_type"
    let payload ← match lookupField o "payload" with
      | none => .ok []
      | some (.obj fs) => .ok fs
      | some _ => .error "ValidationError: payload"
    let timestamp ← asOptStr (lookupField o "timestamp")
    mkACPMessage sender receiver topic msg_type payload timestamp
  | _ => .error "MalformedEnvelope"

/-- State of the message bus (`RabbitMQBus`): the connected flag and the two
subscription registries. Handlers are opaque and identified by numbers. -/
structure RabbitMQBus where
  is_connected : Bool
  agent_subscribers : List (String × Nat)
  topic_subscribers : List (String × List Nat)

/-- Generic association-list lookup for the subscription registries. -/
def lookupAssoc {α : Type} : List (String × α) → String → Option α
  | [], _ => none
  | (k', v) :: rest, k => if k' = k then some v else lookupAssoc rest k

/-- Python dict assignment `d[k] = v`: replace an existing binding or append. -/
def setAssoc {α : Type} : List (String × α) → String → α → List (String × α)
  | [], k, v => [(k, v)]
  | (k', v') :: rest, k, v =>
    if k' = k then (k, v) :: rest else (k', v') :: setAssoc rest k v

/-- The string inside a truthy `Optional[str]` used as a routing key. -/
def optStrVal : Option String → String
  | none => ""
  | some s => s

/-- Delivery to the direct exchange (`_publish_direct`): if a handler is
registered under the routing key, the wire body is decoded and handed to it;
otherwise the message is silently dropped. Callback exceptions are swallowed
by `_invoke_callback` and so do not surface here. -/
def publishDirect (bus : RabbitMQBus) (routing_key : String) (body : Json) :
    Except String (List (Nat × ACPMessage)) :=
  match lookupAssoc bus.agent_subscribers routing_key with
  | none => .ok []
  | some h =>
    match ACPMessage.decode body with
    | .ok m => .ok [(h, m)]
    | .error e => .error e

/-- Delivery to the topic exchange (`_publish_topic`): every handler
registered on the topic receives the decoded message. -/
def publishTopic (bus : RabbitMQBus) (routing_key : String) (body : Json) :
    Except String (List (Nat × ACPMessage)) :=
  match lookupAssoc bus.topic_subscribers routing_key with
  | none => .ok []
  | some hs =>
    match ACPMessage.decode body with
    | .ok m => .ok (hs.map (fun h => (h, m)))
    | .error e => .error e

/-- Publishing on the bus (`publish_message`): requires the connected flag,
serialises the envelope, and routes by the truthiness of `receiver_id` /
`topic`. The result is the list of (handler, message) deliveries; the
subscription registries are read, never written. -/
def publish_message (bus : RabbitMQBus) (message : ACPMessage) :
    Except String (List (Nat × ACPMessage)) :=
  if !bus.is_connected then .error "Not connected to RabbitMQ"
  else
    let body := message.encode
    if truthyStr message.receiver_id then
      publishDirect bus (optStrVal message.receiver_id) body
    else if truthyStr message.topic then
      publishTopic bus (optStrVal message.topic) body
    else .error "Message must have either receiver_id or topic"

/-- Publishing viewed as a state transition, to express that the registries
are untouched: the source's `publish_message` only reads the bus object. -/
def publishStep (bus : RabbitMQBus) (message : ACPMessage) :
    RabbitMQBus × Except String (List (Nat × ACPMessage)) :=
  (bus, publish_message bus message)

/-- Workflow state owned by `AsyncOrchestratorAgent`. Timestamps are
modelled as integers; datetime formatting is abstracted to `toString`. -/
structure OrchState where
  agent_id : String
  current_query : String
  current_task_id : String
  search_results : List Json
  extracted_content : List Json
  synthesis_report : Json
  workflow_start_time : Option Int
  agent_status : List (String × String)

/-- Message construction via `AsyncBaseAgent.create_message`: populates the
sender and leaves the timestamp unset. Every orchestrator call site
satisfies the destination xor rule, so validation succeeds. -/
def createMessage (sender : String) (receiver_id topic : Option String)
    (msg_type : ACPMsgType) (payload : List (String × Json)) : ACPMessage :=
  ⟨sender, receiver_id, topic, msg_type, payload, none⟩

/-- The web-search TaskAssign built by `_assign_search_task`. -/
def assignSearchTaskMsg (st : OrchState) (query : String) : ACPMessage :=
  createMessage st.agent_id (some "search_agent") none .TASK_ASSIGN
    (TaskAssignPayload.dump
      ⟨"web_search",
       [("query", .str query), ("task_id", .str st.current_task_id),
        ("max_results", .num 5)], 1⟩)

/-- The log broadcast built by `_broadcast_log`. -/
def broadcastLogMsg (st : OrchState) (level message : String) : ACPMessage :=
  createMessage st.agent_id none (some "logs") .LOG_BROADCAST
    (LogBroadcastPayload.dump ⟨level, message, some st.agent_id⟩)

/-- The extraction TaskAssign built by `_assign_extraction_task`. -/
def assignExtractionTaskMsg (st : OrchState) (url : Json) (source_desc : String) :
    ACPMessage :=
  createMessage st.agent_id (some "extraction_agent") none .TASK_ASSIGN
    (TaskAssignPayload.dump
      ⟨"extract_content",
       [("url", url), ("task_id", .str st.current_task_id),
        ("source_description", .str source_desc)], 2⟩)

/-- The synthesis TaskAssign built by `_assign_synthesis_task`. -/
def assignSynthesisTaskMsg (st : OrchState) : ACPMessage :=
  createMessage st.agent_id (some "synthesis_agent") none .TASK_ASSIGN
    (TaskAssignPayload.dump
      ⟨"synthesize_research",
       [("query", .str st.current_query),
        ("search_results", .arr st.search_results),
        ("extracted_content", .arr st.extracted_content),
        ("task_id", .str st.current_task_id)], 1⟩)

/-- The save_file TaskAssign built by `_assign_file_save_task`; the filename
timestamp rendering is abstracted to `toString now`. -/
def assignFileSaveTaskMsg (st : OrchState) (now : Int) (content : Json) :
    ACPMessage :=
  createMessage st.agent_id (some "file_save_agent") none .TASK_ASSIGN
    (TaskAssignPayload.dump
      ⟨"save_file",
       [("file_path",
         .str ("output/reports/research_report_" ++ toString now ++ ".md")),
        ("content", content), ("task_id", .str st.current_task_id)], 1⟩)

/-- The completion broadcast built by `_broadcast_workflow_completion`. -/
def workflowCompletionMsg (st : OrchState) (now : Int) : ACPMessage :=
  let duration_str :=
    match st.workflow_start_time with
    | some t => toString (now - t)
    | none => "unknown"
  let word_count :=
    match st.synthesis_report with
    | .obj fs => (lookupField fs "word_count").getD (.num 0)
    | _ => .num 0
  broadcastLogMsg st "INFO"
    ("Research workflow completed successfully! Query: '" ++ st.current_query ++
     "' | Duration: " ++ duration_str ++
     " | Sources: " ++ toString st.extracted_content.length ++
     " | Report words: " ++ pyStr word_count)

/-- Failure handling (`_handle_agent_failure`): always broadcast a WARNING;
additionally re-dispatch the search task when the failing agent's id
contains "search" and `search_results` is still empty. The source guards
the retry with no per-workflow counter. -/
def handleAgentFailure (st : OrchState) (agent_id error_status : String) :
    OrchState × List ACPMessage :=
  let warn := broadcastLogMsg st "WARNING"
    ("Agent " ++ agent_id ++ " failed: " ++ error_status)
  if strContains agent_id "search" && st.search_results.isEmpty then
    (st, [warn, assignSearchTaskMsg st st.current_query])
  else
    (st, [warn])

/-- Status-update handling (`_handle_status_update`): record the sender's
status, then treat any status whose lowercasing contains "failed" as a
failure. A payload that fails pydantic validation raises and is caught by
`handle_message`, leaving the state unchanged. -/
def handleStatusUpdate (st : OrchState) (msg : ACPMessage) :
    OrchState × List ACPMessage :=
  match parseStatusUpdatePayload msg.payload with
  | .error _ => (st, [])
  | .ok payload =>
    let st1 := { st with
      agent_status := setAssoc st.agent_status msg.sender_id payload.status }
    if strContains (pyLower payload.status) "failed" then
      handleAgentFailure st1 msg.sender_id payload.status
    else
      (st1, [])

/-- Building the fan-out of `_handle_search_results`: the loop reads
`result.get("url", "")` on each of the first three results; a non-dict
result raises AttributeError, in which case the collected coroutines are
never gathered and no message is sent (`none`). -/
def buildExtractionMsgs (st : OrchState) : List Json → Nat →
    Option (List ACPMessage)
  | [], _ => some []
  | r :: rest, i =>
    match r with
    | .obj fs =>
      match buildExtractionMsgs st rest (i + 1) with
      | none => none
      | some tail =>
        let url := (lookupField fs "url").getD (.str "")
        if pyTruthy url then
          some (assignExtractionTaskMsg st url ("source_" ++ toString (i + 1)) :: tail)
        else
          some tail
    | _ => none

/-- Search-result handling (`_handle_search_results`): extend
`search_results` with the submitted list, then fan out extraction tasks for
the first three results that carry a truthy url. Python `extend` iterates
strings character-wise and dicts key-wise; on a non-iterable it raises
before any mutation. -/
def handleSearchResults (st : OrchState) (p : DataSubmitPayload) :
    OrchState × List ACPMessage :=
  match p.data with
  | .obj fs =>
    let results := (lookupField fs "results").getD (.arr [])
    match results with
    | .arr xs =>
      let st1 := { st with search_results := st.search_results ++ xs }
      match buildExtractionMsgs st1 (xs.take 3) 0 with
      | some msgs => (st1, msgs)
      | none => (st1, [])
    | .str s =>
      let chars := s.toList.map (fun c => Json.str (String.singleton c))
      let st1 := { st with search_results := st.search_results ++ chars }
      (st1, [])
    | .obj kvs =>
      let keys := kvs.map (fun kv => Json.str kv.1)
      let st1 := { st with search_results := st.search_results ++ keys }
      (st1, [])
    | _ => (st, [])
  | _ => (st, [])

/-- Extracted-content handling (`_handle_extracted_content`): append the
submitted data unconditionally — the source never reads
`extraction_successful` — then dispatch synthesis whenever the stored list
has length at least 2. Reading `word_count` off a non-dict raises after the
append, skipping the dispatch. -/
def handleExtractedContent (st : OrchState) (p : DataSubmitPayload) :
    OrchState × List ACPMessage :=
  let st1 := { st with extracted_content := st.extracted_content ++ [p.data] }
  if p.data.isObj then
    if 2 ≤ st1.extracted_content.length then
      (st1, [assignSynthesisTaskMsg st1])
    else
      (st1, [])
  else
    (st1, [])

/-- Synthesis-report handling (`_handle_synthesis_report`): store the report,
then dispatch the file-save task and the completion broadcast. Reading
`word_count` off a non-dict report raises after the assignment. -/
def handleSynthesisReport (st : OrchState) (now : Int) (p : DataSubmitPayload) :
    OrchState × List ACPMessage :=
  let st1 := { st with synthesis_report := p.data }
  match p.data with
  | .obj fs =>
    let content := (lookupField fs "report_content").getD (.str "")
    (st1, [assignFileSaveTaskMsg st1 now content, workflowCompletionMsg st1 now])
  | _ => (st1, [])

/-- Data-submission dispatch (`_handle_data_submission`). -/
def handleDataSubmission (st : OrchState) (now : Int) (msg : ACPMessage) :
    OrchState × List ACPMessage :=
  match parseDataSubmitPayload msg.payload with
  | .error _ => (st, [])
  | .ok p =>
    if p.data_type = "search_results" then handleSearchResults st p
    else if p.data_type = "extracted_content" then handleExtractedContent st p
    else if p.data_type = "synthesis_report" then handleSynthesisReport st now p
    else (st, [])

/-- Top-level orchestrator message handler (`handle_message`): dispatch on
the message type; any other type is only logged. -/
def orchHandleMessage (now : Int) (st : OrchState) (msg : ACPMessage) :
    OrchState × List ACPMessage :=
  match msg.msg_type with
  | .STATUS_UPDATE => handleStatusUpdate st msg
  | .DATA_SUBMIT => handleDataSubmission st now msg
  | _ => (st, [])

/-- Workflow initialisation (`start_research`): reset the collections,
broadcast the start log, and dispatch the first web-search task. The random
task id is passed in as a parameter. -/
def startResearch (st : OrchState) (query task_id : String) (now : Int) :
    OrchState × List ACPMessage :=
  let st1 := { st with
    current_query := query, current_task_id := task_id,
    workflow_start_time := some now, search_results := [],
    extracted_content := [], synthesis_report := .obj [] }
  (st1,
   [broadcastLogMsg st1 "INFO" ("Research workflow started: '" ++ query ++ "'"),
    assignSearchTaskMsg st1 query])

/-- Running the orchestrator over a list of incoming messages, collecting
the outputs of each step. -/
def orchRun (now : Int) : OrchState → List ACPMessage →
    OrchState × List (List ACPMessage)
  | st, [] => (st, [])
  | st, m :: ms =>
    let step := orchHandleMessage now st m
    let rest := orchRun now step.1 ms
    (rest.1, step.2 :: rest.2)

/-- Recognises a TaskAssign of the given task type among emitted messages. -/
def isTaskAssignOf (m : ACPMessage) (t : String) : Bool :=
  decide (m.msg_type = .TASK_ASSIGN) &&
    (match lookupField m.payload "task_type" with
     | some (.str s) => s = t
     | _ => false)

/-- Recognises an incoming DataSubmit of data_type "extracted_content"
that the orchestrator can parse. -/
def isExtractedContentSubmit (m : ACPMessage) : Bool :=
  decide (m.msg_type = .DATA_SUBMIT) &&
    (match parseDataSubmitPayload m.payload with
     | .ok p => p.data_type = "extracted_content"
     | .error _ => false)

/-- Recognises an extracted_content DataSubmit whose data carries
`extraction_successful = true` (a successful extraction report). -/
def isSuccessfulExtractionSubmit (m : ACPMessage) : Bool :=
  decide (m.msg_type = .DATA_SUBMIT) &&
    (match parseDataSubmitPayload m.payload with
     | .ok p =>
       p.data_type = "extracted_content" &&
         (match p.data with
          | .obj fs =>
            match lookupField fs "extraction_successful" with
            | some (.bool true) => true
            | _ => false
          | _ => false)
     | .error _ => false)

/-- State of the log-sink (`AsyncLoggerAgent`): ring buffer of log-entry
dicts, per-level counters, per-component activity map, and statistics.
Wall-clock timestamps are threaded in as strings. -/
structure LoggerState where
  agent_id : String
  log_buffer : List (List (String × Json))
  agent_status : List (String × Json)
  filter_level : String
  message_count : Nat
  log_count_by_level : List (String × Nat)
  agent_activity : List (String × Json)

/-- Append to a `deque(maxlen=1000)`: the oldest entries are dropped once
the buffer holds 1000 items. -/
def dequeAppend {α : Type} (buf : List α) (x : α) : List α :=
  let b := buf ++ [x]
  if 1000 < b.length then b.drop (b.length - 1000) else b

/-- Python attribute access on a `LogBroadcastPayload` instance: the model
declares exactly the fields `level`, `message` and `component`, so any
other attribute name raises AttributeError. -/
def LogBroadcastPayload.getattr (p : LogBroadcastPayload) (name : String) :
    Except String Json :=
  if name = "level" then .ok (.str p.level)
  else if name = "message" then .ok (.str p.message)
  else if name = "component" then .ok (optStrJson p.component)
  else .error ("AttributeError: " ++ name)

/-- The log-entry dict built at the top of `_handle_log_broadcast`. The
source reads `payload.correlation_id`, an attribute the payload model does
not declare, so the construction raises before the entry is produced. -/
def buildLogEntry (now : String) (p : LogBroadcastPayload) (sender : String) :
    Except String (List (String × Json)) := do
  let level ← p.getattr "level"
  let message ← p.getattr "message"
  let component ← p.getattr "component"
  let correlation ← p.getattr "correlation_id"
  .ok [("timestamp", .str now), ("level", level), ("message", message),
       ("component", component), ("correlation_id", correlation),
       ("sender_id", .str sender)]

/-- Update of the per-component activity map inside `_handle_log_broadcast`. -/
def updateAgentActivity (activity : List (String × Json))
    (component : Option String) (level : String) (now : String) :
    List (String × Json) :=
  match component with
  | none => activity
  | some c =>
    if c = "" then activity
    else
      let base :=
        match lookupAssoc activity c with
        | some (.obj fs) => fs
        | _ =>
          [("first_seen", .str now), ("last_activity", .str now),
           ("message_count", .num 0), ("error_count", .num 0)]
      let msgCount :=
        match lookupField base "message_count" with
        | some (.num n) => n
        | _ => 0
      let errCount :=
        match lookupField base "error_count" with
        | some (.num n) => n
        | _ => 0
      let base1 := setAssoc base "last_activity" (.str now)
      let base2 := setAssoc base1 "message_count" (.num (msgCount + 1))
      let base3 :=
        if level = "ERROR" ∨ level = "CRITICAL" then
          setAssoc base2 "error_count" (.num (errCount + 1))
        else base2
      setAssoc activity c (.obj base3)

/-- Level stored in a buffered log-entry dict. -/
def entryLevel (entry : List (String × Json)) : Option Json :=
  lookupField entry "level"

/-- Whether a buffered entry counts as an error for the alert window. -/
def entryIsError (entry : List (String × Json)) : Bool :=
  match entryLevel entry with
  | some (.str "ERROR") => true
  | some (.str "CRITICAL") => true
  | _ => false

/-- The DataSubmit alert built inside `_analyze_log_patterns`. -/
def systemAlertMsg (agent_id now : String)
    (recent_errors : List (List (String × Json))) : ACPMessage :=
  createMessage agent_id (some "orchestrator") none .DATA_SUBMIT
    (DataSubmitPayload.dump
      ⟨"system_alert",
       .obj [("alert_type", .str "high_error_rate"),
             ("recent_errors", .arr (recent_errors.map Json.obj)),
             ("error_count", .num recent_errors.length),
             ("timestamp", .str now)],
       some "logger_agent", none⟩)

/-- Pattern analysis (`_analyze_log_patterns`): when the freshly buffered
entry is ERROR or CRITICAL and at least 3 of the last 10 buffered entries
are errors, emit one system_alert DataSubmit to the orchestrator. -/
def analyzeLogPatterns (st : LoggerState) (now : String)
    (log_entry : List (String × Json)) : List ACPMessage :=
  if entryIsError log_entry then
    let lastTen := st.log_buffer.drop (st.log_buffer.length - 10)
    let recent_errors := lastTen.filter entryIsError
    if 3 ≤ recent_errors.length then
      [systemAlertMsg st.agent_id now recent_errors]
    else []
  else []

/-- Log-broadcast handling (`_handle_log_broadcast`), wrapped in the
handler's try/except: the entry construction raises AttributeError on
`payload.correlation_id` before any mutation, so the caught-exception
branch leaves buffer, counters and activity untouched and emits nothing.
The code below the construction is embedded faithfully but is unreachable
in the source as written. -/
def handleLogBroadcast (now : String) (st : LoggerState) (msg : ACPMessage) :
    LoggerState × List ACPMessage :=
  match parseLogBroadcastPayload msg.payload with
  | .error _ => (st, [])
  | .ok payload =>
    match buildLogEntry now payload msg.sender_id with
    | .error _ => (st, [])
    | .ok log_entry =>
      let st1 := { st with log_buffer := dequeAppend st.log_buffer log_entry }
      let st2 :=
        match lookupAssoc st1.log_count_by_level payload.level with
        | some n =>
          { st1 with log_count_by_level :=
              setAssoc st1.log_count_by_level payload.level (n + 1) }
        | none => st1
      let newActivity :=
        updateAgentActivity st2.agent_activity payload.component payload.level now
      let st3 := { st2 with agent_activity := newActivity }
      (st3, analyzeLogPatterns st3 now log_entry)

/-- Receipt of a LOG_BROADCAST by the log-sink: `handle_message` bumps
`message_count` and dispatches to `_handle_log_broadcast`. -/
def loggerReceiveLogBroadcast (now : String) (st : LoggerState)
    (msg : ACPMessage) : LoggerState × List ACPMessage :=
  let st0 := { st with message_count := st.message_count + 1 }
  handleLogBroadcast now st0 msg

/-- Tool calls the file-save worker can issue against the filesystem server. -/
inductive ToolCall where
  | validate_path (path : Json)
  | save_file (path : Json) (content : Json)

/-- Oracle for the two filesystem tools as seen by the worker through
`call_mcp_tool`; an `error` models a raised exception (network failure or
non-200 response). -/
structure FsTools where
  validate_path : Json → Except String Json
  save_file : Json → Json → Except String Json

/-- Wrapper `_validate_file_path`: a raised exception is converted to an
`is_allowed=false` dict carrying the error. -/
def validateFilePath (tools : FsTools) (file_path : Json) : Json :=
  match tools.validate_path file_path with
  | .ok r => r
  | .error e => .obj [("is_allowed", .bool false), ("error", .str e)]

/-- Pydantic validation of the `task_id` argument (an `Optional[str]`
field): a non-string, non-null value raises ValidationError. -/
def asTaskId : Json → Except String (Option String)
  | .str s => .ok (some s)
  | .null => .ok none
  | _ => .error "ValidationError: task_id"

/-- The StatusUpdate sent by the worker's `_send_status_update`;
construction can raise when the task id taken from the task data is not a
string. -/
def statusUpdateMsg (agent_id status : String) (progress : Option Int)
    (task_id : Json) : Except String ACPMessage := do
  let tid ← asTaskId task_id
  .ok (createMessage agent_id (some "orchestrator") none .STATUS_UPDATE
    (StatusUpdatePayload.dump ⟨status, progress, tid⟩))

/-- The `_send_error_status` message: a StatusUpdate whose status is the
error prefixed with "file_save_failed: ", progress 0. -/
def errorStatusMsg (agent_id err : String) (task_id : Json) :
    Except String ACPMessage :=
  statusUpdateMsg agent_id ("file_save_failed: " ++ err) (some 0) task_id

/-- Log broadcast emitted by the file-save worker. -/
def agentLogMsg (agent_id level message : String) : ACPMessage :=
  createMessage agent_id none (some "logs") .LOG_BROADCAST
    (LogBroadcastPayload.dump ⟨level, message, some agent_id⟩)

/-- Python `len(content)`: defined on strings and containers, a TypeError
otherwise. -/
def pyLen : Json → Except String Nat
  | .str s => .ok s.length
  | .arr xs => .ok xs.length
  | .obj fs => .ok fs.length
  | _ => .error "TypeError: len"

/-- The except-branch of `_save_file_securely` (lines 166-182): emit the
error StatusUpdate and then the ERROR log broadcast. If the status message
itself raises (bad task id), the exception escapes the method and the
broadcast is not sent. -/
def saveExceptBranch (agent_id : String) (fp : Json) (e : String)
    (task_id : Json) : List ACPMessage × Option String :=
  let error_msg := "File save failed for " ++ pyStr fp ++ ": " ++ e
  match errorStatusMsg agent_id error_msg task_id with
  | .ok m =>
    ([m, agentLogMsg agent_id "ERROR"
        ("File save failed: " ++ pyStr fp ++ " - " ++ error_msg)], none)
  | .error e2 => ([], some e2)

/-- The body of `_save_file_securely`: returns the tool calls issued, the
messages emitted, and—when an exception escapes the method—the exception
text. The security gate: `validate_path` is consulted first, and a falsy
`is_allowed` sends only the `file_save_failed:` StatusUpdate and returns
without ever calling `save_file`. -/
def saveFileSecurely (agent_id : String) (tools : FsTools)
    (td : List (String × Json)) :
    List ToolCall × List ACPMessage × Option String :=
  let file_path := (lookupField td "file_path").getD .null
  let content := (lookupField td "content").getD (.str "")
  let task_id := (lookupField td "task_id").getD (.str "unknown")
  if !pyTruthy file_path then
    match errorStatusMsg agent_id "No file path provided for save operation"
        task_id with
    | .ok m => ([], [m], none)
    | .error e => ([], [], some e)
  else
    match statusUpdateMsg agent_id "file_save_starting" (some 10) task_id with
    | .error e =>
      let eb := saveExceptBranch agent_id file_path e task_id
      ([], eb.1, eb.2)
    | .ok m1 =>
      match statusUpdateMsg agent_id "validating_path" (some 25) task_id with
      | .error e =>
        let eb := saveExceptBranch agent_id file_path e task_id
        ([], [m1] ++ eb.1, eb.2)
      | .ok m2 =>
        let vres := validateFilePath tools file_path
        match vres with
        | .obj vfs =>
          let allowed := (lookupField vfs "is_allowed").getD (.bool false)
          if !pyTruthy allowed then
            match errorStatusMsg agent_id
                ("File path not allowed by MCP Roots security: " ++
                 pyStr file_path) task_id with
            | .ok m3 => ([.validate_path file_path], [m1, m2, m3], none)
            | .error e =>
              let eb := saveExceptBranch agent_id file_path e task_id
              ([.validate_path file_path], [m1, m2] ++ eb.1, eb.2)
          else
            match statusUpdateMsg agent_id "preparing_file_save" (some 50)
                task_id with
            | .error e =>
              let eb := saveExceptBranch agent_id file_path e task_id
              ([.validate_path file_path], [m1, m2] ++ eb.1, eb.2)
            | .ok m3 =>
              match tools.save_file file_path content with
              | .error e =>
                let eb := saveExceptBranch agent_id file_path e task_id
                ([.validate_path file_path, .save_file file_path content],
                 [m1, m2, m3] ++ eb.1, eb.2)
              | .ok result =>
                match result with
                | .obj rfs =>
                  let success := (lookupField rfs "success").getD (.bool false)
                  let bytes_written :=
                    (lookupField rfs "bytes_written").getD (.num 0)
                  let saved_path :=
                    (lookupField rfs "file_path").getD file_path
                  if pyTruthy success then
                    match statusUpdateMsg agent_id "file_save_complete"
                        (some 100) task_id with
                    | .error e =>
                      let eb := saveExceptBranch agent_id file_path e task_id
                      ([.validate_path file_path,
                        .save_file file_path content],
                       [m1, m2, m3] ++ eb.1, eb.2)
                    | .ok m4 =>
                      match pyLen content, asTaskId task_id with
                      | .ok clen, .ok tid =>
                        let save_data : Json :=
                          .obj [("file_path", saved_path),
                                ("bytes_written", bytes_written),
                                ("content_length", .num clen),
                                ("save_successful", .bool true)]
                        let dataMsg := createMessage agent_id
                          (some "orchestrator") none .DATA_SUBMIT
                          (DataSubmitPayload.dump
                            ⟨"file_save_result", save_data,
                             some "filesystem", tid⟩)
                        let infoMsg := agentLogMsg agent_id "INFO"
                          ("File saved successfully: " ++ pyStr saved_path ++
                           " (" ++ pyStr bytes_written ++ " bytes)")
                        ([.validate_path file_path,
                          .save_file file_path content],
                         [m1, m2, m3, m4, dataMsg, infoMsg], none)
                      | .error e, _ =>
                        let eb := saveExceptBranch agent_id file_path e task_id
                        ([.validate_path file_path,
                          .save_file file_path content],
                         [m1, m2, m3, m4] ++ eb.1, eb.2)
                      | _, .error e =>
                        let eb := saveExceptBranch agent_id file_path e task_id
                        ([.validate_path file_path,
                          .save_file file_path content],
                         [m1, m2, m3, m4] ++ eb.1, eb.2)
                  else
                    match errorStatusMsg agent_id
                        ("File save operation failed for " ++ pyStr file_path)
                        task_id with
                    | .ok m4 =>
                      ([.validate_path file_path,
                        .save_file file_path content],
                       [m1, m2, m3, m4], none)
                    | .error e =>
                      let eb := saveExceptBranch agent_id file_path e task_id
                      ([.validate_path file_path,
                        .save_file file_path content],
                       [m1, m2, m3] ++ eb.1, eb.2)
                | _ =>
                  let eb := saveExceptBranch agent_id file_path
                    "AttributeError: get" task_id
                  ([.validate_path file_path, .save_file file_path content],
                   [m1, m2, m3] ++ eb.1, eb.2)
        | _ =>
          let eb := saveExceptBranch agent_id file_path
            "AttributeError: get" task_id
          ([.validate_path file_path], [m1, m2] ++ eb.1, eb.2)

/-- Handling of a save_file TaskAssign by the worker
(`_handle_task_assignment` for `task_type = "save_file"`): an exception
escaping `_save_file_securely` is caught and converted to one more error
StatusUpdate built with a null task id. -/
def handleSaveFileTask (agent_id : String) (tools : FsTools)
    (payload : List (String × Json)) : List ToolCall × List ACPMessage :=
  match parseTaskAssignPayload payload with
  | .error e =>
    match errorStatusMsg agent_id e .null with
    | .ok m => ([], [m])
    | .error _ => ([], [])
  | .ok p =>
    if p.task_type = "save_file" then
      match saveFileSecurely agent_id tools p.task_data with
      | (calls, msgs, none) => (calls, msgs)
      | (calls, msgs, some e) =>
        match errorStatusMsg agent_id e .null with
        | .ok m => (calls, msgs ++ [m])
        | .error _ => (calls, msgs)
    else ([], [])

/-- Environment of the filesystem authority: `resolve` models
`Path(p).resolve()` (canonicalisation through symlinks and ".." against
the process filesystem; `none` models a raised OSError/ValueError), and
`writeResult` models the write plus `stat().st_size` (`none` is an
IOError). Canonical paths are absolute segment lists. -/
structure FsEnv where
  resolve : String → Option (List String)
  writeResult : List String → String → Option Nat

/-- The security gate `_is_path_allowed`: resolve the candidate, then test
`relative_to` against each allow-list root; containment of canonical
absolute paths is segment-list prefixing. Resolution failure is
disallowed. -/
def is_path_allowed (env : FsEnv) (allowed_roots : List (List String))
    (path_to_check : String) : Bool :=
  match env.resolve path_to_check with
  | none => false
  | some target => allowed_roots.any (fun r => r.isPrefixOf target)

/-- Python `str()` of a resolved `Path`. -/
def rootRepr (r : List String) : String :=
  "/" ++ String.intercalate "/" r

/-- Python rendering of `[str(r) for r in allowed_roots]` inside the
f-string of the rejection message. -/
def rootsListRepr (roots : List (List String)) : String :=
  "[" ++ String.intercalate ", " (roots.map (fun r => "'" ++ rootRepr r ++ "'"))
    ++ "]"

/-- The HTTP 403 detail produced by `save_file_endpoint` for a disallowed
path: it interpolates both the requested path and the configured
allow-list roots. -/
def accessDeniedDetail (file_path : String) (roots : List (List String)) :
    String :=
  "Access denied: '" ++ file_path ++ "' is outside allowed roots. " ++
    "Allowed roots: " ++ rootsListRepr roots

/-- Result of the save_file HTTP endpoint. -/
inductive SaveFileResult where
  | ok (file_path : String) (bytes_written : Nat)
  | httpError (status : Nat) (detail : String)

/-- The `/tools/save_file` endpoint: reject with 403 before any filesystem
work when the path is not allowed; otherwise resolve, write, and report the
size (500 on IOError). The second component lists the writes performed. -/
def save_file_endpoint (env : FsEnv) (roots : List (List String))
    (file_path content : String) :
    SaveFileResult × List (List String × String) :=
  if !is_path_allowed env roots file_path then
    (.httpError 403 (accessDeniedDetail file_path roots), [])
  else
    match env.resolve file_path with
    | some target =>
      match env.writeResult target content with
      | some size => (.ok (rootRepr target) size, [(target, content)])
      | none =>
        (.httpError 500 ("Failed to save file '" ++ file_path ++ "'"), [])
    | none => (.httpError 500 ("Failed to resolve '" ++ file_path ++ "'"), [])

/-- The `/tools/validate_path` endpoint. -/
def validate_path_endpoint (env : FsEnv) (roots : List (List String))
    (path : String) : Json :=
  let is_allowed := is_path_allowed env roots path
  let resolved : Json :=
    if is_allowed then
      match env.resolve path with
      | some t => .str (rootRepr t)
      | none => .null
    else .null
  .obj [("path", .str path), ("is_allowed", .bool is_allowed),
        ("resolved_path", resolved)]

/-- Whether an `Except` computation succeeded (a pydantic construction that
did not raise). -/
def isOkE {ε α : Type} : Except ε α → Bool
  | .ok _ => true
  | .error _ => false

/-- Number of synthesize_research TaskAssigns among emitted messages. -/
def countSynth (outs : List ACPMessage) : Nat :=
  outs.countP (fun m => isTaskAssignOf m "synthesize_research")

/-- Number of web_search TaskAssigns among emitted messages. -/
def countWebSearch (outs : List ACPMessage) : Nat :=
  outs.countP (fun m => isTaskAssignOf m "web_search")

/-- All messages emitted by a run of the orchestrator, in order. -/
def orchOuts (now : Int) (st : OrchState) (msgs : List ACPMessage) :
    List ACPMessage :=
  ((orchRun now st msgs).2).flatten

/-- Recognises a StatusUpdate that reports a failure of the search worker:
the parsed status contains "failed" (case-insensitively) and the sender's
id contains "search". -/
def isFailedSearchStatus (msg : ACPMessage) : Bool :=
  decide (msg.msg_type = .STATUS_UPDATE) &&
    (match parseStatusUpdatePayload msg.payload with
     | .ok p => strContains (pyLower p.status) "failed"
     | .error _ => false) &&
    strContains msg.sender_id "search"

/-- Recognises a DataSubmit whose data is a dict (so that the handler's
`.get` accesses succeed). -/
def submitDataIsObj (msg : ACPMessage) : Bool :=
  match parseDataSubmitPayload msg.payload with
  | .ok p => p.data.isObj
  | .error _ => false

/-- Whether a message is a LOG_BROADCAST envelope. -/
def msgIsLogBroadcast (m : ACPMessage) : Bool :=
  decide (m.msg_type = .LOG_BROADCAST)

/-- Whether a message is a StatusUpdate whose status starts with the given
prefix string. -/
def msgStatusStarts (m : ACPMessage) (pre : String) : Bool :=
  decide (m.msg_type = .STATUS_UPDATE) &&
    (match lookupField m.payload "status" with
     | some (.str s) => pre.data.isPrefixOf s.data
     | _ => false)

/-- Whether a save_file tool call occurs in a call list. -/
def hasSaveCall (calls : List ToolCall) : Bool :=
  calls.any (fun c =>
    match c with
    | .save_file _ _ => true
    | _ => false)

/-- Whether a validation result dict carries a truthy `is_allowed`. -/
def vresAllows (v : Json) : Bool :=
  match v with
  | .obj fs => pyTruthy ((lookupField fs "is_allowed").getD (.bool false))
  | _ => false

/-- Whether a validation result is a dict that denies the path (falsy
`is_allowed`). A non-dict result is not a denial: it raises inside the
handler instead. -/
def vresDenies (v : Json) : Bool :=
  match v with
  | .obj fs => !pyTruthy ((lookupField fs "is_allowed").getD (.bool false))
  | _ => false

/-- Fresh workflow state used by the concrete scenarios: the state right
after `start_research("Q")` with task id "abc12345" at time 0. -/
def orchInit : OrchState :=
  ⟨"orchestrator", "Q", "abc12345", [], [], .obj [], some 0, []⟩

/-- The data dict the extraction worker submits for a failed extraction
(`extraction_successful = false`). -/
def failedExtractionData (url : String) : Json :=
  .obj [("url", .str url),
        ("title", .str ("Failed extraction from " ++ url)),
        ("content", .str ""), ("word_count", .num 0),
        ("source_description", .str "unknown_source"),
        ("extraction_successful", .bool false),
        ("error_message", .str "boom")]

/-- The DataSubmit envelope the extraction worker sends for a failed
extraction. -/
def failedExtractionSubmit (url : String) : ACPMessage :=
  createMessage "extraction_agent" (some "orchestrator") none .DATA_SUBMIT
    (DataSubmitPayload.dump
      ⟨"extracted_content", failedExtractionData url, some url,
       some "abc12345"⟩)

/-- The data dict the extraction worker submits for a successful
extraction. -/
def successfulExtractionData (url : String) : Json :=
  .obj [("url", .str url), ("title", .str ("Content from " ++ url)),
        ("content", .str "some text"), ("word_count", .num 2),
        ("source_description", .str "source_1"),
        ("extraction_successful", .bool true)]

/-- The DataSubmit envelope the extraction worker sends for a successful
extraction. -/
def successfulExtractionSubmit (url : String) : ACPMessage :=
  createMessage "extraction_agent" (some "orchestrator") none .DATA_SUBMIT
    (DataSubmitPayload.dump
      ⟨"extracted_content", successfulExtractionData url, some url,
       some "abc12345"⟩)

/-- A failure StatusUpdate from the search worker. -/
def failedSearchStatus : ACPMessage :=
  createMessage "search_agent" (some "orchestrator") none .STATUS_UPDATE
    (StatusUpdatePayload.dump ⟨"search_failed: boom", some 0, some "abc12345"⟩)

/-- Filesystem tools whose path validation denies every path. -/
def denyTools : FsTools :=
  ⟨fun p => .ok (.obj [("path", p), ("is_allowed", .bool false),
                       ("resolved_path", .null)]),
   fun _ _ => .ok (.obj [("success", .bool true), ("bytes_written", .num 5)])⟩

/-- Filesystem tools whose path validation allows every path. -/
def allowTools : FsTools :=
  ⟨fun p => .ok (.obj [("path", p), ("is_allowed", .bool true),
                       ("resolved_path", p)]),
   fun p _ => .ok (.obj [("success", .bool true), ("file_path", p),
                         ("bytes_written", .num 5)])⟩

/-- A concrete save task's task_data. -/
def saveTaskData : List (String × Json) :=
  [("file_path", .str "output/reports/r.md"),
   ("content", .str "hello"), ("task_id", .str "abc12345")]

/-- A concrete save_file TaskAssign payload. -/
def saveTaskPayload : List (String × Json) :=
  TaskAssignPayload.dump ⟨"save_file", saveTaskData, 1⟩

/-- A concrete filesystem environment: only "/etc/passwd" resolves, to the
canonical segments etc/passwd; every write succeeds reporting size 0. -/
def envEtc : FsEnv :=
  ⟨fun p => if p = "/etc/passwd" then some ["etc", "passwd"] else none,
   fun _ _ => some 0⟩

/-- A concrete connected bus with one registered agent handler. -/
def busOne : RabbitMQBus :=
  ⟨true, [("orchestrator", 0)], []⟩

/-- A concrete direct envelope addressed to an agent nobody registered. -/
def strayDirectMsg : ACPMessage :=
  createMessage "orchestrator" (some "search_agent") none .TASK_ASSIGN
    (TaskAssignPayload.dump ⟨"web_search", [("query", .str "Q")], 1⟩)

/-- A concrete well-formed envelope for the round-trip witness. -/
def sampleEnvelope : ACPMessage :=
  ⟨"orchestrator", some "search_agent", none, .TASK_ASSIGN,
   [("task_type", .str "web_search"), ("priority", .num 1)], some "t0"⟩

/-- A concrete logger state with a part-filled buffer and counters. -/
def loggerInit : LoggerState :=
  ⟨"logger_agent",
   [[("timestamp", .str "t0"), ("level", .str "ERROR"),
     ("message", .str "old"), ("component", .str "search_agent"),
     ("correlation_id", .null), ("sender_id", .str "search_agent")]],
   [], "INFO", 7, [("DEBUG", 0), ("INFO", 3), ("WARNING", 0), ("ERROR", 1),
   ("CRITICAL", 0)], []⟩

/-- A concrete LogBroadcast envelope as any worker sends it. -/
def sampleLogBroadcast : ACPMessage :=
  createMessage "orchestrator" none (some "logs") .LOG_BROADCAST
    (LogBroadcastPayload.dump
      ⟨"ERROR", "Content extraction failed: u1", some "orchestrator"⟩)

/-- Whether a validate_path tool call occurs in a call list. -/
def hasValidateCall (calls : List ToolCall) : Bool :=
  calls.any (fun c =>
    match c with
    | .validate_path _ => true
    | _ => false)

/-- The file_path value of a save task's data (`task_data.get("file_path")`). -/
def tdFilePath (td : List (String × Json)) : Json :=
  (lookupField td "file_path").getD .null

/-- The content value of a save task's data (`task_data.get("content", "")`). -/
def tdContent (td : List (String × Json)) : Json :=
  (lookupField td "content").getD (.str "")

/-- The candidate path's canonical form lies outside every allow-list root
(or the path fails to resolve at all). -/
def resolutionOutside (env : FsEnv) (roots : List (List String))
    (p : String) : Prop :=
  ∀ t, env.resolve p = some t → ∀ r ∈ roots, r.isPrefixOf t = false

/-- Helper: parsing an enum value emitted by `ACPMsgType.value` recovers the
message type. -/
theorem ACPMsgType.ofValue_value (mt : ACPMsgType) :
    ACPMsgType.ofValue? mt.value = some mt := by
  cases mt <;> rfl

/-- C3 counterexample: contrary to the claim, construction succeeds for an
envelope with an empty sender_id, for a StatusUpdate payload with progress
150, and for a LogBroadcast payload whose level is not one of the five
levels — none of these checks exists in the source. -/
theorem c3_validation_counterexample :
    isOkE (mkACPMessage "" (some "orchestrator") none .STATUS_UPDATE [] none)
        = true ∧
    isOkE (mkStatusUpdatePayload "working" (some 150) none) = true ∧
    isOkE (mkLogBroadcastPayload "BOGUS" "m" none) = true :=
  ⟨rfl, rfl, rfl⟩

/-- C3 amended: envelope construction enforces exactly the destination xor
rule and nothing else; StatusUpdate and LogBroadcast payload construction
perform no validation at all. -/
theorem c3_construction_checks_only_destination
    (sender : String) (receiver topic : Option String) (mt : ACPMsgType)
    (payload : List (String × Json)) (ts : Option String)
    (status : String) (progress : Option Int) (tid : Option String)
    (level lmsg : String) (comp : Option String) :
    isOkE (mkACPMessage sender receiver topic mt payload ts)
        = destOk receiver topic ∧
    isOkE (mkStatusUpdatePayload status progress tid) = true ∧
    isOkE (mkLogBroadcastPayload level lmsg comp) = true := by
  refine ⟨?_, rfl, rfl⟩
  cases h1 : (!truthyStr receiver && !truthyStr topic) <;>
    cases h2 : (truthyStr receiver && truthyStr topic) <;>
      simp [mkACPMessage, destOk, isOkE, h1, h2]

/-- C7: every LOG_BROADCAST the log-sink receives is dropped by the
caught AttributeError on `payload.correlation_id`: the handler only bumps
`message_count`; the ring buffer, the per-level counters and the activity
map are unchanged and no alert is ever emitted. -/
theorem c7_log_broadcast_dropped (now : String) (st : LoggerState)
    (msg : ACPMessage) :
    loggerReceiveLogBroadcast now st msg =
      ({ st with message_count := st.message_count + 1 }, []) := by
  unfold loggerReceiveLogBroadcast handleLogBroadcast
  cases hp : parseLogBroadcastPayload msg.payload with
  | error e => simp [hp]
  | ok p =>
    have hb : buildLogEntry now p msg.sender_id =
        .error "AttributeError: correlation_id" := rfl
    simp [hp, hb]

/-- C10: publishing a direct envelope while connected with no handler
registered under its receiver id succeeds, delivers to no handler, and
leaves the bus state (in particular both subscription registries)
untouched. -/
theorem c10_publish_unsubscribed_direct (bus : RabbitMQBus) (m : ACPMessage)
    (h1 : bus.is_connected = true)
    (h2 : truthyStr m.receiver_id = true)
    (h3 : lookupAssoc bus.agent_subscribers (optStrVal m.receiver_id) = none) :
    publishStep bus m = (bus, .ok []) := by
  unfold publishStep publish_message publishDirect
  simp [h1, h2, h3]

/-- C10 witness: a concrete connected bus and a direct envelope to an
unregistered agent. -/
theorem c10_publish_unsubscribed_direct_witness :
    publishStep busOne strayDirectMsg = (busOne, .ok []) :=
  c10_publish_unsubscribed_direct busOne strayDirectMsg rfl rfl rfl

/-- Helper: under the destination xor rule, envelope construction succeeds
and returns the record built from its arguments. -/
theorem mkACPMessage_ok (sender : String) (receiver topic : Option String)
    (mt : ACPMsgType) (payload : List (String × Json)) (ts : Option String)
    (h : destOk receiver topic = true) :
    mkACPMessage sender receiver topic mt payload ts =
      .ok ⟨sender, receiver, topic, mt, payload, ts⟩ := by
  cases h1 : (!truthyStr receiver && !truthyStr topic) with
  | true => rw [destOk] at h; simp [h1] at h
  | false =>
    cases h2 : (truthyStr receiver && truthyStr topic) with
    | true => rw [destOk] at h; simp [h1, h2] at h
    | false => rw [mkACPMessage]; simp [h1, h2]

/-- C8: decoding the canonical encoding of any envelope satisfying the
construction invariant (the destination xor rule) yields the envelope
back. -/
theorem c8_encode_decode_roundtrip (m : ACPMessage)
    (h : destOk m.receiver_id m.topic = true) :
    ACPMessage.decode (ACPMessage.encode m) = .ok m := by
  obtain ⟨sid, rid, top, mt, pl, ts⟩ := m
  simp only at h
  have hmk := mkACPMessage_ok sid rid top mt pl ts h
  cases rid <;> cases top <;> cases ts <;>
    simp [ACPMessage.encode, ACPMessage.decode, lookupField, optStrJson,
          asOptStr, ACPMsgType.ofValue_value, hmk]
  all_goals exact hmk

/-- C8 witness: the round trip evaluated on a concrete well-formed
envelope. -/
theorem c8_encode_decode_roundtrip_witness :
    destOk sampleEnvelope.receiver_id sampleEnvelope.topic = true ∧
    ACPMessage.decode (ACPMessage.encode sampleEnvelope) = .ok sampleEnvelope :=
  ⟨rfl, c8_encode_decode_roundtrip sampleEnvelope rfl⟩

/-- C4: the save_file endpoint writes only to the resolved form of a path
that canonically lies under some allow-list root; whenever the resolution
lies outside every root (or fails), the request is answered with HTTP 403
and nothing is written. -/
theorem c4_save_file_respects_roots (env : FsEnv) (roots : List (List String))
    (fp c : String) :
    (∀ w ∈ (save_file_endpoint env roots fp c).2,
        ∃ t, env.resolve fp = some t ∧ w.1 = t ∧
          ∃ r ∈ roots, r.isPrefixOf t = true) ∧
    (resolutionOutside env roots fp →
        save_file_endpoint env roots fp c =
          (.httpError 403 (accessDeniedDetail fp roots), [])) := by
  constructor
  · intro w hw
    unfold save_file_endpoint at hw
    cases ha : is_path_allowed env roots fp with
    | false => simp [ha] at hw
    | true =>
      simp [ha] at hw
      unfold is_path_allowed at ha
      cases hres : env.resolve fp with
      | none => rw [hres] at ha; exact absurd ha (by simp)
      | some t =>
        rw [hres] at ha hw
        obtain ⟨r, hr, hpre⟩ := List.any_eq_true.mp ha
        cases hwr : env.writeResult t c with
        | none => simp [hwr] at hw
        | some size =>
          simp [hwr] at hw
          exact ⟨t, rfl, by rw [hw], r, hr, hpre⟩
  · intro hout
    have hfalse : is_path_allowed env roots fp = false := by
      unfold is_path_allowed
      cases hres : env.resolve fp with
      | none => rfl
      | some t =>
        simp only [List.any_eq_false]
        intro r hr
        simp [hout t hres r hr]
    unfold save_file_endpoint
    simp [hfalse]

/-- C4 witness: a concrete environment in which "/etc/passwd" resolves
outside the single allow-list root and is rejected with 403 and no write. -/
theorem c4_save_file_respects_roots_witness :
    save_file_endpoint envEtc [["app", "output"]] "/etc/passwd" "x" =
      (.httpError 403 (accessDeniedDetail "/etc/passwd" [["app", "output"]]),
       []) := by
  refine (c4_save_file_respects_roots envEtc [["app", "output"]]
    "/etc/passwd" "x").2 ?_
  intro t ht r hr
  have ht' : t = ["etc", "passwd"] := by
    simpa [envEtc] using ht.symm
  have hr' : r = ["app", "output"] := by simpa using hr
  subst ht'; subst hr'
  rfl

/-- C5 counterexample: the HTTP 403 body is not a function of the requested
path alone — two configurations differing only in their allow-list roots
produce different rejection messages for the same disallowed path, and each
message spells out the configured roots. -/
theorem c5_rejection_echoes_roots_counterexample :
    (save_file_endpoint envEtc [["app", "output"]] "/etc/passwd" "x").1 =
      .httpError 403
        "Access denied: '/etc/passwd' is outside allowed roots. Allowed roots: ['/app/output']" ∧
    (save_file_endpoint envEtc [["app", "www"]] "/etc/passwd" "x").1 =
      .httpError 403
        "Access denied: '/etc/passwd' is outside allowed roots. Allowed roots: ['/app/www']" ∧
    ("Access denied: '/etc/passwd' is outside allowed roots. Allowed roots: ['/app/output']" : String) ≠
      "Access denied: '/etc/passwd' is outside allowed roots. Allowed roots: ['/app/www']" := by
  refine ⟨rfl, rfl, by decide⟩

/-- C5 amended: every rejected save_file request is answered with a 403
whose detail interpolates the requested path together with the configured
allow-list roots (see `accessDeniedDetail`), so the rejection message
reveals the allow-list. -/
theorem c5_rejection_detail_includes_roots (env : FsEnv)
    (roots : List (List String)) (fp c : String)
    (h : is_path_allowed env roots fp = false) :
    (save_file_endpoint env roots fp c).1 =
      .httpError 403
        ("Access denied: '" ++ fp ++ "' is outside allowed roots. " ++
         "Allowed roots: " ++ rootsListRepr roots) := by
  unfold save_file_endpoint
  simp [h, accessDeniedDetail]

/-- C5 witness: the amended statement evaluated on a concrete disallowed
path and root configuration. -/
theorem c5_rejection_detail_includes_roots_witness :
    (save_file_endpoint envEtc [["app", "output"]] "/etc/passwd" "x").1 =
      .httpError 403
        ("Access denied: '" ++ "/etc/passwd" ++
         "' is outside allowed roots. " ++ "Allowed roots: " ++
         rootsListRepr [["app", "output"]]) :=
  c5_rejection_detail_includes_roots envEtc [["app", "output"]]
    "/etc/passwd" "x" rfl

/-- Helper: a log broadcast is never a TaskAssign. -/
theorem ta_broadcast (st : OrchState) (l m t : String) :
    isTaskAssignOf (broadcastLogMsg st l m) t = false := rfl

/-- Helper: the completion broadcast is never a TaskAssign. -/
theorem ta_completion (st : OrchState) (n : Int) (t : String) :
    isTaskAssignOf (workflowCompletionMsg st n) t = false := rfl

/-- Helper: the search task is not a synthesis dispatch. -/
theorem ta_search_synth (st : OrchState) (q : String) :
    isTaskAssignOf (assignSearchTaskMsg st q) "synthesize_research" = false := rfl

/-- Helper: the search task is a web_search dispatch. -/
theorem ta_search_ws (st : OrchState) (q : String) :
    isTaskAssignOf (assignSearchTaskMsg st q) "web_search" = true := rfl

/-- Helper: an extraction task is not a synthesis dispatch. -/
theorem ta_extract_synth (st : OrchState) (u : Json) (d : String) :
    isTaskAssignOf (assignExtractionTaskMsg st u d) "synthesize_research"
      = false := rfl

/-- Helper: an extraction task is not a web_search dispatch. -/
theorem ta_extract_ws (st : OrchState) (u : Json) (d : String) :
    isTaskAssignOf (assignExtractionTaskMsg st u d) "web_search" = false := rfl

/-- Helper: the synthesis task is a synthesis dispatch. -/
theorem ta_synth_synth (st : OrchState) :
    isTaskAssignOf (assignSynthesisTaskMsg st) "synthesize_research"
      = true := rfl

/-- Helper: the synthesis task is not a web_search dispatch. -/
theorem ta_synth_ws (st : OrchState) :
    isTaskAssignOf (assignSynthesisTaskMsg st) "web_search" = false := rfl

/-- Helper: the file-save task is not a synthesis dispatch. -/
theorem ta_save_synth (st : OrchState) (n : Int) (c : Json) :
    isTaskAssignOf (assignFileSaveTaskMsg st n c) "synthesize_research"
      = false := rfl

/-- Helper: the file-save task is not a web_search dispatch. -/
theorem ta_save_ws (st : OrchState) (n : Int) (c : Json) :
    isTaskAssignOf (assignFileSaveTaskMsg st n c) "web_search" = false := rfl

/-- Helper: no synthesis dispatches in the empty output list. -/
theorem countSynth_nil : countSynth [] = 0 := rfl

/-- Helper: no web_search dispatches in the empty output list. -/
theorem countWS_nil : countWebSearch [] = 0 := rfl

/-- Helper: unfolding the synthesis counter over a cons. -/
theorem countSynth_cons (m : ACPMessage) (l : List ACPMessage) :
    countSynth (m :: l) =
      countSynth l +
        (if isTaskAssignOf m "synthesize_research" = true then 1 else 0) := by
  rw [countSynth, countSynth, List.countP_cons]

/-- Helper: unfolding the web_search counter over a cons. -/
theorem countWS_cons (m : ACPMessage) (l : List ACPMessage) :
    countWebSearch (m :: l) =
      countWebSearch l +
        (if isTaskAssignOf m "web_search" = true then 1 else 0) := by
  rw [countWebSearch, countWebSearch, List.countP_cons]

/-- Helper: the synthesis counter distributes over append. -/
theorem countSynth_append (a b : List ACPMessage) :
    countSynth (a ++ b) = countSynth a + countSynth b := by
  rw [countSynth, countSynth, countSynth, List.countP_append]

/-- Helper: the web_search counter distributes over append. -/
theorem countWS_append (a b : List ACPMessage) :
    countWebSearch (a ++ b) = countWebSearch a + countWebSearch b := by
  rw [countWebSearch, countWebSearch, countWebSearch, List.countP_append]

/-- Helper: the extraction fan-out emits neither synthesis nor web_search
dispatches. -/
theorem buildExtractionMsgs_counts (st : OrchState) :
    ∀ (xs : List Json) (i : Nat) (msgs : List ACPMessage),
      buildExtractionMsgs st xs i = some msgs →
      countSynth msgs = 0 ∧ countWebSearch msgs = 0 := by
  intro xs
  induction xs with
  | nil =>
    intro i msgs h
    unfold buildExtractionMsgs at h
    cases h
    exact ⟨rfl, rfl⟩
  | cons r rest ih =>
    intro i msgs h
    unfold buildExtractionMsgs at h
    cases r <;> simp at h
    case obj fs =>
      cases hb : buildExtractionMsgs st rest (i + 1) with
      | none => rw [hb] at h; simp at h
      | some tail =>
        rw [hb] at h
        have ht := ih (i + 1) tail hb
        by_cases hu : pyTruthy ((lookupField fs "url").getD (.str "")) = true
        · simp [hu] at h
          subst h
          rw [countSynth_cons, countWS_cons, ta_extract_synth, ta_extract_ws]
          simp [ht.1, ht.2]
        · simp [hu] at h
          subst h
          exact ht

/-- Helper: handling a status update never emits a synthesis dispatch and
leaves the extraction and search collections untouched. -/
theorem handleStatusUpdate_spec (st : OrchState) (msg : ACPMessage) :
    countSynth (handleStatusUpdate st msg).2 = 0 ∧
    (handleStatusUpdate st msg).1.extracted_content = st.extracted_content ∧
    (handleStatusUpdate st msg).1.search_results = st.search_results := by
  unfold handleStatusUpdate handleAgentFailure
  cases hp : parseStatusUpdatePayload msg.payload with
  | error e => simp [hp, countSynth_nil]
  | ok p =>
    simp only [hp]
    split_ifs <;>
      simp [countSynth_nil, countSynth_cons, ta_broadcast, ta_search_synth]

/-- Helper: handling a search-result submission never emits synthesis or
web_search dispatches and leaves the extraction collection untouched. -/
theorem handleSearchResults_spec (st : OrchState) (p : DataSubmitPayload) :
    countSynth (handleSearchResults st p).2 = 0 ∧
    countWebSearch (handleSearchResults st p).2 = 0 ∧
    (handleSearchResults st p).1.extracted_content = st.extracted_content := by
  unfold handleSearchResults
  cases hd : p.data <;> simp [countSynth_nil, countWS_nil]
  case obj fs =>
    cases hr : (lookupField fs "results").getD (.arr []) <;>
      simp [countSynth_nil, countWS_nil]
    case arr xs =>
      cases hb : buildExtractionMsgs
          { st with search_results := st.search_results ++ xs }
          (xs.take 3) 0 with
      | none => simp [hb, countSynth_nil, countWS_nil]
      | some msgs =>
        have hc := buildExtractionMsgs_counts
          { st with search_results := st.search_results ++ xs }
          (xs.take 3) 0 msgs hb
        simp [hb, hc.1, hc.2]

/-- Helper: handling an extracted-content submission appends the data and
dispatches synthesis exactly when the data is a dict and the post-append
count reaches 2; it never emits a web_search dispatch. -/
theorem handleExtractedContent_spec (st : OrchState) (p : DataSubmitPayload) :
    (handleExtractedContent st p).1.extracted_content
        = st.extracted_content ++ [p.data] ∧
    countWebSearch (handleExtractedContent st p).2 = 0 ∧
    countSynth (handleExtractedContent st p).2 =
      (if p.data.isObj = true ∧ 2 ≤ st.extracted_content.length + 1
       then 1 else 0) := by
  unfold handleExtractedContent
  cases ho : p.data.isObj with
  | false => simp [ho, countSynth_nil, countWS_nil]
  | true =>
    by_cases hl : 2 ≤ st.extracted_content.length + 1
    · simp [ho, hl, List.length_append, countSynth_nil, countSynth_cons,
            countWS_nil, countWS_cons, ta_synth_synth, ta_synth_ws]
    · simp [ho, hl, List.length_append, countSynth_nil, countWS_nil]

/-- Helper: handling a synthesis report emits neither synthesis nor
web_search dispatches and leaves the extraction collection untouched. -/
theorem handleSynthesisReport_spec (st : OrchState) (now : Int)
    (p : DataSubmitPayload) :
    countSynth (handleSynthesisReport st now p).2 = 0 ∧
    countWebSearch (handleSynthesisReport st now p).2 = 0 ∧
    (handleSynthesisReport st now p).1.extracted_content
        = st.extracted_content := by
  unfold handleSynthesisReport
  cases hd : p.data <;>
    simp [countSynth_nil, countWS_nil, countSynth_cons, countWS_cons,
          ta_save_synth, ta_save_ws, ta_completion]

/-- Helper: a single orchestrator step emits a synthesize_research dispatch
exactly when the incoming message is a parsable extracted_content DataSubmit
carrying dict data and the post-append count is at least 2 — and then it
emits exactly one. -/
theorem step_synth_count (now : Int) (st : OrchState) (msg : ACPMessage) :
    countSynth (orchHandleMessage now st msg).2 =
      (if isExtractedContentSubmit msg = true ∧ submitDataIsObj msg = true ∧
          2 ≤ st.extracted_content.length + 1
       then 1 else 0) := by
  unfold orchHandleMessage
  cases hmt : msg.msg_type <;>
    simp [isExtractedContentSubmit, hmt, countSynth_nil]
  case STATUS_UPDATE =>
    exact (handleStatusUpdate_spec st msg).1
  case DATA_SUBMIT =>
    unfold handleDataSubmission
    cases hp : parseDataSubmitPayload msg.payload with
    | error e => simp [hp, countSynth_nil]
    | ok p =>
      simp only [hp]
      by_cases h1 : p.data_type = "search_results"
      · simp [h1, (handleSearchResults_spec st p).1]
      · by_cases h2 : p.data_type = "extracted_content"
        · have hc := (handleExtractedContent_spec st p).2.2
          simp [h1, h2, submitDataIsObj, hp, hc]
        · by_cases h3 : p.data_type = "synthesis_report"
          · simp [h1, h2, h3, (handleSynthesisReport_spec st now p).1]
          · simp [h1, h2, h3, countSynth_nil]

/-- Helper: a single orchestrator step grows the stored extracted_content by
at most one element, and only on a parsable extracted_content DataSubmit. -/
theorem step_extracted_len (now : Int) (st : OrchState) (msg : ACPMessage) :
    (orchHandleMessage now st msg).1.extracted_content.length ≤
      st.extracted_content.length +
        (if isExtractedContentSubmit msg = true then 1 else 0) := by
  unfold orchHandleMessage
  cases hmt : msg.msg_type <;> simp [isExtractedContentSubmit, hmt]
  case STATUS_UPDATE =>
    simp [(handleStatusUpdate_spec st msg).2.1]
  case DATA_SUBMIT =>
    unfold handleDataSubmission
    cases hp : parseDataSubmitPayload msg.payload with
    | error e => simp [hp]
    | ok p =>
      simp only [hp]
      by_cases h1 : p.data_type = "search_results"
      · simp [h1, (handleSearchResults_spec st p).2.2]
      · by_cases h2 : p.data_type = "extracted_content"
        · simp [h1, h2, (handleExtractedContent_spec st p).1,
                List.length_append]
        · by_cases h3 : p.data_type = "synthesis_report"
          · simp [h1, h2, h3, (handleSynthesisReport_spec st now p).2.2]
          · simp [h1, h2, h3]

/-- Helper: the outputs of a run split as the first step's outputs followed
by the rest of the run from the successor state. -/
theorem orchOuts_cons (now : Int) (st : OrchState) (m : ACPMessage)
    (ms : List ACPMessage) :
    orchOuts now st (m :: ms) =
      (orchHandleMessage now st m).2 ++
        orchOuts now (orchHandleMessage now st m).1 ms := rfl

/-- Helper: a run that dispatches synthesis must have processed enough
extracted_content submissions to lift the stored count to 2 or more. -/
theorem orch_synth_lower_bound (now : Int) :
    ∀ (msgs : List ACPMessage) (st : OrchState),
      0 < countSynth (orchOuts now st msgs) →
      2 ≤ st.extracted_content.length +
            msgs.countP isExtractedContentSubmit := by
  intro msgs
  induction msgs with
  | nil => intro st h; simp [orchOuts, orchRun, countSynth] at h
  | cons m ms ih =>
    intro st h
    rw [orchOuts_cons] at h
    rw [countSynth, List.countP_append] at h
    rw [List.countP_cons]
    by_cases hs : 0 < countSynth (orchHandleMessage now st m).2
    · have hc := step_synth_count now st m
      rw [hc] at hs
      split_ifs at hs with hcond
      · obtain ⟨hsub, hobj, hlen⟩ := hcond
        simp [hsub]
        omega
      · omega
    · have hrest : 0 < countSynth
          (orchOuts now (orchHandleMessage now st m).1 ms) := by
        rw [countSynth] at hs ⊢
        omega
      have hih := ih (orchHandleMessage now st m).1 hrest
      have hlen := step_extracted_len now st m
      by_cases hm : isExtractedContentSubmit m = true
      · simp [hm] at hlen ⊢
        omega
      · simp [hm] at hlen ⊢
        omega

/-- C1 counterexample: two failed extractions (extraction_successful =
false) suffice to make the orchestrator dispatch synthesize_research — the
gate counts every extracted_content submission, successful or not. -/
theorem c1_failed_extractions_trigger_synthesis_counterexample :
    countSynth (orchOuts 0 orchInit
      [failedExtractionSubmit "u1", failedExtractionSubmit "u2"]) = 1 ∧
    List.countP isSuccessfulExtractionSubmit
      [failedExtractionSubmit "u1", failedExtractionSubmit "u2"] = 0 :=
  ⟨rfl, rfl⟩

/-- C1 amended: synthesize_research is dispatched only after at least two
DataSubmit extracted_content envelopes of any kind (the orchestrator never
reads extraction_successful) have been received for the workflow; with
fewer than two such submissions no synthesis task is ever dispatched. -/
theorem c1_synthesis_requires_two_submissions (now : Int) (st : OrchState)
    (msgs : List ACPMessage) (h0 : st.extracted_content = [])
    (h : 0 < countSynth (orchOuts now st msgs)) :
    2 ≤ msgs.countP isExtractedContentSubmit := by
  have hb := orch_synth_lower_bound now msgs st h
  rw [h0] at hb
  simpa using hb

/-- C1 witness: the amended bound evaluated on the concrete two-submission
run. -/
theorem c1_synthesis_requires_two_submissions_witness :
    2 ≤ List.countP isExtractedContentSubmit
      [failedExtractionSubmit "u1", failedExtractionSubmit "u2"] :=
  c1_synthesis_requires_two_submissions 0 orchInit
    [failedExtractionSubmit "u1", failedExtractionSubmit "u2"] rfl
    (by decide)

/-- C2 counterexample: three extracted_content submissions produce two
synthesize_research dispatches — synthesis is re-triggered by the third
arrival, refuting the at-most-once claim. -/
theorem c2_redispatch_counterexample :
    countSynth (orchOuts 0 orchInit
      [successfulExtractionSubmit "u1", successfulExtractionSubmit "u2",
       successfulExtractionSubmit "u3"]) = 2 :=
  rfl

/-- C2 amended: on each parsable extracted_content DataSubmit with dict
data, the orchestrator dispatches exactly one synthesize_research TaskAssign
precisely when the post-append count is at least 2: the first dispatch
happens at the crossing from 1 to 2, but every later extracted_content
arrival re-triggers a further dispatch. -/
theorem c2_synthesis_dispatch_characterisation (now : Int) (st : OrchState)
    (msg : ACPMessage) :
    countSynth (orchHandleMessage now st msg).2 =
      (if isExtractedContentSubmit msg = true ∧ submitDataIsObj msg = true ∧
          2 ≤ st.extracted_content.length + 1
       then 1 else 0) :=
  step_synth_count now st msg

/-- C6 counterexample: two failed search StatusUpdates while search_results
is still empty produce two web_search re-dispatches — the source has no
once-per-workflow retry guard. -/
theorem c6_double_retry_counterexample :
    countWebSearch (orchOuts 0 orchInit
      [failedSearchStatus, failedSearchStatus]) = 2 := by
  decide

/-- C6 amended: a web_search dispatch is emitted by a step exactly when the
incoming message is a parsable StatusUpdate whose status contains "failed"
(case-insensitively) from a sender whose id contains "search" while
search_results is empty; every such status re-triggers the retry, with no
at-most-once cap. -/
theorem c6_search_retry_characterisation (now : Int) (st : OrchState)
    (msg : ACPMessage) :
    countWebSearch (orchHandleMessage now st msg).2 =
      (if isFailedSearchStatus msg = true ∧ st.search_results.isEmpty = true
       then 1 else 0) := by
  unfold orchHandleMessage
  cases hmt : msg.msg_type <;>
    simp [isFailedSearchStatus, hmt, countWS_nil]
  case STATUS_UPDATE =>
    unfold handleStatusUpdate handleAgentFailure
    cases hp : parseStatusUpdatePayload msg.payload with
    | error e => simp [hp, countWS_nil]
    | ok p =>
      simp only [hp]
      by_cases hf : strContains (pyLower p.status) "failed" = true
      · by_cases hsa : strContains msg.sender_id "search" = true
        · by_cases hse : st.search_results.isEmpty = true
          · simp [hmt, hf, hsa, hse, countWS_cons, countWS_nil, ta_broadcast,
                  ta_search_ws]
          · simp [hmt, hf, hsa, hse, countWS_cons, countWS_nil, ta_broadcast]
        · simp [hmt, hf, hsa, countWS_cons, countWS_nil, ta_broadcast]
      · simp [hmt, hf, countWS_nil]
  case DATA_SUBMIT =>
    unfold handleDataSubmission
    cases hp : parseDataSubmitPayload msg.payload with
    | error e => simp [hp, countWS_nil]
    | ok p =>
      simp only [hp]
      by_cases h1 : p.data_type = "search_results"
      · simp [h1, (handleSearchResults_spec st p).2.1]
      · by_cases h2 : p.data_type = "extracted_content"
        · simp [h1, h2, (handleExtractedContent_spec st p).2.1]
        · by_cases h3 : p.data_type = "synthesis_report"
          · simp [h1, h2, h3, (handleSynthesisReport_spec st now p).2.1]
          · simp [h1, h2, h3, countWS_nil]

/-- Helper: bind of a successful Except computation. -/
theorem except_bind_ok {ε α β : Type} (a : α) (f : α → Except ε β) :
    (Except.ok a >>= f) = f a := rfl

/-- Helper: bind of a failed Except computation. -/
theorem except_bind_error {ε α β : Type} (e : ε) (f : α → Except ε β) :
    ((Except.error e : Except ε α) >>= f) = .error e := rfl

/-- Helper: evaluation of the worker's status-update construction by the
result of validating the task id. -/
theorem statusUpdateMsg_eval (a s : String) (p : Option Int) (t : Json) :
    statusUpdateMsg a s p t =
      (match asTaskId t with
       | .ok tid =>
         .ok (createMessage a (some "orchestrator") none .STATUS_UPDATE
           (StatusUpdatePayload.dump ⟨s, p, tid⟩))
       | .error e => .error e) := by
  unfold statusUpdateMsg
  cases h : asTaskId t <;> simp [h, except_bind_ok, except_bind_error]

/-- Helper: a call list containing only a validation carries no save call. -/
theorem not_save_validate (p : Json) :
    hasSaveCall [ToolCall.validate_path p] = false := rfl

/-- Helper: the two-call list of the successful flow contains a save call. -/
theorem save_in_calls (p c : Json) :
    hasSaveCall [ToolCall.validate_path p, ToolCall.save_file p c] = true := rfl

/-- C9 counterexample: when the filesystem validation denies the path, the
worker issues only the validate_path call and emits one StatusUpdate
starting with "file_save_failed:" — and no LogBroadcast at all, contrary to
the claim that both an ERROR LogBroadcast and the StatusUpdate are sent. -/
theorem c9_denied_path_no_broadcast_counterexample :
    (handleSaveFileTask "file_save_agent" denyTools saveTaskPayload).1 =
      [ToolCall.validate_path (.str "output/reports/r.md")] ∧
    (handleSaveFileTask "file_save_agent" denyTools saveTaskPayload).2.countP
      msgIsLogBroadcast = 0 ∧
    (handleSaveFileTask "file_save_agent" denyTools saveTaskPayload).2.countP
      (fun m => msgStatusStarts m "file_save_failed:") = 1 :=
  ⟨rfl, rfl, rfl⟩

/-- C9 amended: the file-save worker calls save_file only after a
validate_path call whose result carries a truthy is_allowed; whenever the
validation result denies the path, save_file is never called and the worker
emits exactly one StatusUpdate beginning "file_save_failed:" and no
LogBroadcast (the error is logged only locally; ERROR LogBroadcasts are
reserved for raised exceptions). -/
theorem c9_validate_gates_save (agent_id : String) (tools : FsTools)
    (td : List (String × Json)) :
    (hasSaveCall (saveFileSecurely agent_id tools td).1 = true →
        (saveFileSecurely agent_id tools td).1 =
          [.validate_path (tdFilePath td),
           .save_file (tdFilePath td) (tdContent td)] ∧
        vresAllows (validateFilePath tools (tdFilePath td)) = true) ∧
    (hasValidateCall (saveFileSecurely agent_id tools td).1 = true →
     vresDenies (validateFilePath tools (tdFilePath td)) = true →
        hasSaveCall (saveFileSecurely agent_id tools td).1 = false ∧
        (saveFileSecurely agent_id tools td).2.1.countP msgIsLogBroadcast
          = 0 ∧
        (saveFileSecurely agent_id tools td).2.1.countP
          (fun m => msgStatusStarts m "file_save_failed:") = 1) := by
  have hfp : (lookupField td "file_path").getD .null = tdFilePath td := rfl
  have hct : (lookupField td "content").getD (.str "") = tdContent td := rfl
  unfold saveFileSecurely
  simp only [hfp, hct]
  cases ht : asTaskId ((lookupField td "task_id").getD (.str "unknown")) with
  | error e =>
    simp only [errorStatusMsg, statusUpdateMsg_eval, saveExceptBranch, ht]
    by_cases hfp' : pyTruthy (tdFilePath td) = true <;>
      simp [hfp', hasSaveCall, hasValidateCall]
  | ok tid =>
    simp only [errorStatusMsg, statusUpdateMsg_eval, saveExceptBranch, ht]
    by_cases hfp' : pyTruthy (tdFilePath td) = true
    · simp only [hfp', if_true, Bool.not_true, Bool.false_eq_true, if_false]
      cases hv : validateFilePath tools (tdFilePath td) with
      | obj vfs =>
        simp only [hv]
        cases hal :
            pyTruthy ((lookupField vfs "is_allowed").getD (.bool false)) with
        | true =>
          -- validation allowed: the save path
          simp only [hal, Bool.not_true, Bool.false_eq_true, if_false]
          cases hsv : tools.save_file (tdFilePath td) (tdContent td) with
          | error e =>
            simp only [hsv]
            constructor
            · intro _
              constructor
              · trivial
              · simp [vresAllows, hv, hal]
            · intro _ hden
              simp [vresDenies, hv, hal] at hden
          | ok result =>
            simp only [hsv]
            cases result with
            | obj rfs =>
              by_cases hsc :
                  pyTruthy ((lookupField rfs "success").getD (.bool false))
                    = true
              · simp only [hsc, if_true]
                cases hpl : pyLen (tdContent td) with
                | ok clen =>
                  simp only [hpl]
                  constructor
                  · intro _
                    constructor
                    · trivial
                    · simp [vresAllows, hv, hal]
                  · intro _ hden
                    simp [vresDenies, hv, hal] at hden
                | error e =>
                  simp only [hpl]
                  constructor
                  · intro _
                    constructor
                    · trivial
                    · simp [vresAllows, hv, hal]
                  · intro _ hden
                    simp [vresDenies, hv, hal] at hden
              · simp only [hsc, if_false]
                constructor
                · intro _
                  constructor
                  · trivial
                  · simp [vresAllows, hv, hal]
                · intro _ hden
                  simp [vresDenies, hv, hal] at hden
            | null =>
              constructor
              · intro _
                constructor
                · trivial
                · simp [vresAllows, hv, hal]
              · intro _ hden
                simp [vresDenies, hv, hal] at hden
            | bool b =>
              constructor
              · intro _
                constructor
                · trivial
                · simp [vresAllows, hv, hal]
              · intro _ hden
                simp [vresDenies, hv, hal] at hden
            | num n =>
              constructor
              · intro _
                constructor
                · trivial
                · simp [vresAllows, hv, hal]
              · intro _ hden
                simp [vresDenies, hv, hal] at hden
            | str s =>
              constructor
              · intro _
                constructor
                · trivial
                · simp [vresAllows, hv, hal]
              · intro _ hden
                simp [vresDenies, hv, hal] at hden
            | arr xs =>
              constructor
              · intro _
                constructor
                · trivial
                · simp [vresAllows, hv, hal]
              · intro _ hden
                simp [vresDenies, hv, hal] at hden
        | false =>
          -- validation denied: only the failed StatusUpdate is emitted
          rw [if_pos (show (!false) = true from rfl)]
          constructor
          · intro hsc
            rw [not_save_validate] at hsc
            cases hsc
          · intro _ _
            exact ⟨rfl, rfl, rfl⟩
      | null =>
        simp [hv, hasSaveCall, hasValidateCall, vresDenies]
      | bool b =>
        simp [hv, hasSaveCall, hasValidateCall, vresDenies]
      | num n =>
        simp [hv, hasSaveCall, hasValidateCall, vresDenies]
      | str s =>
        simp [hv, hasSaveCall, hasValidateCall, vresDenies]
      | arr xs =>
        simp [hv, hasSaveCall, hasValidateCall, vresDenies]
    · simp [hfp', hasSaveCall, hasValidateCall]

/-- C9 witness: the amended statement evaluated against the denying
filesystem tools on a concrete save task. -/
theorem c9_validate_gates_save_witness :
    hasSaveCall (saveFileSecurely "file_save_agent" denyTools
      saveTaskData).1 = false ∧
    (saveFileSecurely "file_save_agent" denyTools
      saveTaskData).2.1.countP msgIsLogBroadcast = 0 ∧
    (saveFileSecurely "file_save_agent" denyTools saveTaskData).2.1.countP
      (fun m => msgStatusStarts m "file_save_failed:") = 1 :=
  (c9_validate_gates_save "file_save_agent" denyTools saveTaskData).2
    rfl rfl

end Synapse
